import Mathlib

/-!
# Verification of the DiMonte mini-CMS request layer

Shallow embedding of `src/server.js` (Express route handlers, post-payload
validation, login/logout, SQL listing queries) together with proofs of the
behavioural claims made by the specification.

Conventions of the embedding:
* JavaScript strings are Lean `String`s; `String(x || d)` over an optional
  string field is `jsStrOr`; `.trim()` is `jsTrim`; `.toLowerCase()` is
  `jsToLower`.
* HTTP responses are `ApiResult α`: either `ok` with a payload or `err`
  with a numeric status and the message passed to `res.json({error})`.
* The PostgreSQL pool is abstracted as oracles returning
  `Except String _` — an `.error m` models a query that raises an
  exception with message `m` (caught by the handler's `catch` block),
  `.ok` models a completed query with its rows.
* `bcrypt.compare` is an external library call, abstracted as an oracle
  `String → String → Bool`.
-/

deriving instance DecidableEq for Except

namespace DimonteCMS

/-! ## JavaScript string primitives -/

/-- Whitespace characters recognised by JavaScript `String.prototype.trim`
(restricted to the ASCII control/space range that can occur here). -/
def isJsSpace (c : Char) : Bool :=
  c == ' ' || c == '\t' || c == '\n' || c == '\r' || c == '\x0b' || c == '\x0c'

/-- Trim on a character list: drop leading whitespace, then trailing
whitespace (implemented by reversing, dropping, reversing back). -/
def jsTrimList (l : List Char) : List Char :=
  ((l.dropWhile isJsSpace).reverse.dropWhile isJsSpace).reverse

/-- Models JavaScript `s.trim()`. -/
def jsTrim (s : String) : String := ⟨jsTrimList s.data⟩

/-- Models JavaScript `s.toLowerCase()` (ASCII range). -/
def jsToLower (s : String) : String := ⟨s.data.map Char.toLower⟩

/-- Models `String(x || d)` where `x` is an optional (possibly absent)
string field of a JSON body: an absent or empty (falsy) string falls back
to the default `d`. -/
def jsStrOr (x : Option String) (d : String) : String :=
  match x with
  | none => d
  | some s => if s = "" then d else s

/-- Models JavaScript `s.startsWith(p)` (executable over the character
lists, since the claims must be checkable on concrete inputs). -/
def jsStartsWith (s p : String) : Bool :=
  s.data.take p.data.length == p.data

/-! ## HTTP responses -/

/-- Outcome of a route handler: `ok` is a 200 JSON body `{ok:true, ...}`
with the given payload, `err s m` is `res.status(s).json({ok:false, error:m})`. -/
inductive ApiResult (α : Type) where
  | ok (val : α)
  | err (status : Nat) (msg : String)
deriving DecidableEq

/-- The HTTP status code of a response (200 on the success path). -/
def ApiResult.statusCode {α : Type} : ApiResult α → Nat
  | .ok _ => 200
  | .err s _ => s

/-! ## Post payload validation (`normalizePostInput`, server.js lines 93–109) -/

/-- The raw JSON body of a create/update request: every field is an
optional untrusted string. -/
structure RawPayload where
  title : Option String
  category : Option String
  post_date : Option String
  body : Option String
  status : Option String
deriving DecidableEq

/-- The normalized record produced by `normalizePostInput` and passed to
the SQL INSERT/UPDATE. -/
structure NormalizedPost where
  title : String
  category : String
  post_date : String
  body : String
  status : String
deriving DecidableEq

/-- Embeds `normalizePostInput` (server.js lines 93–109): trim all string
fields, require title, post_date and body (in that order, throwing the
German field-naming messages), lower-case the status and coerce it to
`draft` unless it is `draft` or `published`. `throw new Error(msg)` is
modelled as `Except.error msg`. -/
def normalizePostInput (b : RawPayload) : Except String NormalizedPost :=
  let title := jsTrim (jsStrOr b.title "")
  let category := jsTrim (jsStrOr b.category "")
  let post_date := jsTrim (jsStrOr b.post_date "")
  let content := jsTrim (jsStrOr b.body "")
  let status0 := jsToLower (jsTrim (jsStrOr b.status "draft"))
  if title = "" then .error "Titel fehlt"
  else if post_date = "" then .error "Datum fehlt"
  else if content = "" then .error "Text fehlt"
  else
    let status := if status0 = "draft" ∨ status0 = "published" then status0 else "draft"
    .ok { title := title, category := category, post_date := post_date,
          body := content, status := status }

/-- Turns a normalized record back into a raw payload (every field
present), used to state idempotence of validation. -/
def NormalizedPost.toRaw (r : NormalizedPost) : RawPayload :=
  { title := some r.title, category := some r.category,
    post_date := some r.post_date, body := some r.body,
    status := some r.status }

/-! ## Authentication (server.js lines 141–206) -/

/-- The configured admin credentials (`ADMIN_USERNAME`, `ADMIN_PASSWORD`,
read from the environment at boot). -/
structure AuthConfig where
  adminUsername : String
  adminPassword : String
deriving DecidableEq

/-- The record stored in `req.session.user` and returned by a successful
login. -/
structure UserRecord where
  username : String
  role : String
deriving DecidableEq

/-- The format test on the configured secret (server.js lines 151–155):
it selects bcrypt comparison exactly when the secret starts with a
recognised bcrypt hash prefix. -/
def isBcryptHash (s : String) : Bool :=
  jsStartsWith s "$2a$" || jsStartsWith s "$2b$" || jsStartsWith s "$2y$"

/-- Password verification (server.js lines 150–159): bcrypt comparison
(abstracted as the oracle `bc`) when the configured secret looks like a
bcrypt hash, plain string equality otherwise. -/
def verifyPassword (bc : String → String → Bool) (cfg : AuthConfig)
    (password : String) : Bool :=
  if isBcryptHash cfg.adminPassword then bc password cfg.adminPassword
  else password == cfg.adminPassword

/-- Embeds the `POST /api/login` handler (server.js lines 141–187).
The supplied username is trimmed, the password is used as received.
`regenErr`/`saveErr` model a failure of `req.session.regenerate` resp.
`req.session.save` (the session store's persistence callbacks). On
success the handler stores `{username: ADMIN_USERNAME, role: 'admin'}`
in the session and returns that same record. -/
def loginHandler (bc : String → String → Bool) (cfg : AuthConfig)
    (rawUsername rawPassword : Option String)
    (regenErr saveErr : Bool) : ApiResult UserRecord :=
  let username := jsTrim (jsStrOr rawUsername "")
  let password := jsStrOr rawPassword ""
  if username ≠ cfg.adminUsername then .err 401 "Ungültige Zugangsdaten"
  else if verifyPassword bc cfg password = false then .err 401 "Ungültige Zugangsdaten"
  else if regenErr then .err 500 "Session konnte nicht initialisiert werden"
  else if saveErr then .err 500 "Session konnte nicht gespeichert werden"
  else .ok { username := cfg.adminUsername, role := "admin" }

/-- Embeds the `POST /api/logout` handler (server.js lines 189–199):
no session → `{ok:true}` immediately; otherwise `req.session.destroy`,
whose failure (`destroyErr`) yields a 500, and whose success clears the
cookie and yields `{ok:true}`. -/
def logoutHandler (hasSession destroyErr : Bool) : ApiResult Unit :=
  if hasSession = false then .ok ()
  else if destroyErr then .err 500 "Logout fehlgeschlagen"
  else .ok ()

/-! ## Path-id parsing (the `Number(req.params.id)` / `Number.isInteger` / `> 0` check) -/

/-- Digit-list to integer accumulator. -/
def digitsToInt (ds : List Char) : Int :=
  ds.foldl (fun acc d => acc * 10 + (Int.ofNat (d.toNat - '0'.toNat))) 0

/-- The guard `Number.isInteger(id) && id > 0` applied to an
already-integral value: passes it through exactly when it is positive. -/
def checkPositive (v : Int) : Option Int :=
  if 0 < v then some v else none

/-- Models `const id = Number(req.params.id)` followed by the guard
`Number.isInteger(id) && id > 0` (server.js lines 228–231, 272–275,
318–321, 352–355), on the fragment of optionally signed decimal integer
strings: surrounding whitespace is ignored (as `ToNumber` does), a
leading `+`/`-` sign is accepted, and every other input (empty string,
non-digits, fractions) fails the guard. JavaScript's additional numeric
forms (hex, exponent notation) are outside the modelled fragment.
Returns `some id` exactly when the guard passes, so the handler
proceeds to storage. -/
def parsePositiveId (s : String) : Option Int :=
  match (jsTrim s).data with
  | [] => none
  | c :: cs =>
    let digits := if c = '+' ∨ c = '-' then cs else c :: cs
    if digits ≠ [] ∧ digits.all Char.isDigit then
      checkPositive (if c = '-' then - digitsToInt digits else digitsToInt digits)
    else none

/-! ## Posts: rows, SQL queries (server.js lines 211–268) -/

/-- A row of the `posts` table (schema.sql). `post_date` is a SQL `DATE`
and the timestamps are `TIMESTAMPTZ`; they are modelled as integers with
the date/time order, which is all the queries use of them. -/
structure PostRow where
  id : Int
  title : String
  category : String
  post_date : Int
  body : String
  status : String
  created_at : Int
  updated_at : Int
deriving DecidableEq

/-- A row as serialised by the public endpoints, whose SELECT column
list omits `status` (server.js lines 213–218, 233–241). -/
structure PublicPostView where
  id : Int
  title : String
  category : String
  post_date : Int
  body : String
  created_at : Int
  updated_at : Int
deriving DecidableEq

/-- The projection performed by the public SELECT column list. -/
def PostRow.toPublic (r : PostRow) : PublicPostView :=
  { id := r.id, title := r.title, category := r.category,
    post_date := r.post_date, body := r.body,
    created_at := r.created_at, updated_at := r.updated_at }

/-- Row comparison realising `ORDER BY post_date DESC, id DESC`:
`a` may precede `b` when `a` has the later date, or the same date and
the larger (or equal) id. -/
def postPrecedes (a b : PostRow) : Prop :=
  b.post_date < a.post_date ∨ (a.post_date = b.post_date ∧ b.id ≤ a.id)

instance : DecidableRel postPrecedes := fun a b => by
  unfold postPrecedes; infer_instance

instance : IsTotal PostRow postPrecedes where
  total a b := by
    unfold postPrecedes
    rcases lt_trichotomy a.post_date b.post_date with h | h | h
    · exact Or.inr (Or.inl h)
    · rcases le_total a.id b.id with h2 | h2
      · exact Or.inr (Or.inr ⟨h.symm, h2⟩)
      · exact Or.inl (Or.inr ⟨h, h2⟩)
    · exact Or.inl (Or.inl h)

instance : IsTrans PostRow postPrecedes where
  trans a b c hab hbc := by
    unfold postPrecedes at *
    rcases hab with h1 | ⟨e1, i1⟩
    · rcases hbc with h2 | ⟨e2, _⟩
      · exact Or.inl (h2.trans h1)
      · exact Or.inl (e2 ▸ h1)
    · rcases hbc with h2 | ⟨e2, i2⟩
      · exact Or.inl (e1 ▸ h2)
      · exact Or.inr ⟨e1.trans e2, i2.trans i1⟩

/-- The `ORDER BY post_date DESC, id DESC` clause applied to a row set
(modelled as a sort by `postPrecedes`). -/
def orderPosts (rows : List PostRow) : List PostRow :=
  rows.insertionSort postPrecedes

/-- The `WHERE status = 'published'` clause of the public queries. -/
def publishedRows (db : List PostRow) : List PostRow :=
  db.filter (fun r => r.status == "published")

/-- The admin listing query (server.js lines 258–262): all rows,
ordered by date then id descending, status column included. -/
def adminPostsQuery (db : List PostRow) : List PostRow :=
  orderPosts db

/-- The public listing query (server.js lines 213–218): published rows
only, same ordering, status column omitted. -/
def publicPostsQuery (db : List PostRow) : List PublicPostView :=
  (orderPosts (publishedRows db)).map PostRow.toPublic

/-- `SELECT ... FROM posts WHERE id = $1 LIMIT 1` over a database state
(the primary key makes at most one row match). -/
def dbLookupAny (db : List PostRow) (id : Int) : Except String (Option PostRow) :=
  .ok (db.find? (fun r => r.id == id))

/-- `SELECT ... FROM posts WHERE id = $1 AND status = 'published' LIMIT 1`. -/
def dbLookupPublished (db : List PostRow) (id : Int) : Except String (Option PostRow) :=
  .ok (db.find? (fun r => r.id == id && r.status == "published"))

/-! ## Post route handlers (server.js lines 226–367)

Each handler takes the storage operation as an oracle; `.error m` models
the query promise rejecting with message `m`, which lands in the
handler's `catch` block. -/

/-- Embeds `GET /api/posts/:id` (server.js lines 270–295): invalid id →
400 before any storage call; query exception → 500; zero rows → 404;
otherwise the row. -/
def getPostHandler (lookup : Int → Except String (Option PostRow))
    (idParam : String) : ApiResult PostRow :=
  match parsePositiveId idParam with
  | none => .err 400 "Ungültige ID"
  | some id =>
    match lookup id with
    | .error m => .err 500 m
    | .ok none => .err 404 "Nicht gefunden"
    | .ok (some row) => .ok row

/-- Embeds `GET /api/public/posts/:id` (server.js lines 226–251): same
shape as the admin fetch but the lookup carries the published filter and
the response omits the status column. -/
def publicGetPostHandler (lookup : Int → Except String (Option PostRow))
    (idParam : String) : ApiResult PublicPostView :=
  match parsePositiveId idParam with
  | none => .err 400 "Ungültige ID"
  | some id =>
    match lookup id with
    | .error m => .err 500 m
    | .ok none => .err 404 "Nicht gefunden"
    | .ok (some row) => .ok row.toPublic

/-- Embeds `POST /api/posts` (server.js lines 297–314). The single
`try/catch` wraps both validation and the INSERT, and its `catch`
responds with **status 400** carrying the error message — also for a
storage exception. -/
def createPostHandler (insert : NormalizedPost → Except String PostRow)
    (raw : RawPayload) : ApiResult PostRow :=
  match normalizePostInput raw with
  | .error m => .err 400 m
  | .ok d =>
    match insert d with
    | .error m => .err 400 m
    | .ok row => .ok row

/-- Embeds `PUT /api/posts/:id` (server.js lines 316–348): invalid id →
400; then validation; then the UPDATE, whose exception is caught by the
same `catch` responding with **status 400**; zero updated rows → 404. -/
def updatePostHandler (upd : Int → NormalizedPost → Except String (Option PostRow))
    (idParam : String) (raw : RawPayload) : ApiResult PostRow :=
  match parsePositiveId idParam with
  | none => .err 400 "Ungültige ID"
  | some id =>
    match normalizePostInput raw with
    | .error m => .err 400 m
    | .ok d =>
      match upd id d with
      | .error m => .err 400 m
      | .ok none => .err 404 "Nicht gefunden"
      | .ok (some row) => .ok row

/-- Embeds `DELETE /api/posts/:id` (server.js lines 350–367): invalid
id → 400; query exception → 500; zero deleted rows → 404; otherwise
`{ok:true, deletedId:id}`. -/
def deletePostHandler (del : Int → Except String (Option Int))
    (idParam : String) : ApiResult Int :=
  match parsePositiveId idParam with
  | none => .err 400 "Ungültige ID"
  | some id =>
    match del id with
    | .error m => .err 500 m
    | .ok none => .err 404 "Nicht gefunden"
    | .ok (some _) => .ok id

/-! ## Auxiliary definitions used only to state claims -/

/-- A string of `n` spaces, used to state whitespace-padding claims. -/
def spaces (n : Nat) : String := ⟨List.replicate n ' '⟩

/-- Whether a fallible computation succeeded (used to state that
validation acceptance does not depend on the status field). -/
def exceptIsOk {ε α : Type} : Except ε α → Bool
  | .ok _ => true
  | .error _ => false

/-! ## Helper lemmas on the string primitives -/

theorem dropWhile_self {α : Type} (p : α → Bool) (l : List α) :
    (l.dropWhile p).dropWhile p = l.dropWhile p := by
  induction l with
  | nil => rfl
  | cons a t ih =>
    by_cases h : p a = true
    · simp [List.dropWhile_cons, h, ih]
    · simp [List.dropWhile_cons, h]

theorem dropWhile_head_shape {α : Type} (p : α → Bool) (l : List α) :
    l.dropWhile p = [] ∨ ∃ a t, l.dropWhile p = a :: t ∧ p a = false := by
  induction l with
  | nil => exact Or.inl rfl
  | cons a t ih =>
    by_cases h : p a = true
    · simpa [List.dropWhile_cons, h] using ih
    · exact Or.inr ⟨a, t, by simp [List.dropWhile_cons, h], by simpa using h⟩

/-- Trailing-whitespace removal, the second phase of `jsTrimList`. -/
theorem jsTrimList_eq (l : List Char) :
    jsTrimList l = (((l.dropWhile isJsSpace).reverse.dropWhile isJsSpace).reverse) := rfl

theorem rdrop_rdrop (p : Char → Bool) (l : List Char) :
    (((l.reverse.dropWhile p).reverse.reverse.dropWhile p).reverse)
      = (l.reverse.dropWhile p).reverse := by
  rw [List.reverse_reverse, dropWhile_self]

/-- Dropping leading whitespace is a no-op on the front-trimmed,
back-trimmed list: the result of trimming startsWith a non-space (or is
empty). -/
theorem dropWhile_jsTrimList (l : List Char) :
    (jsTrimList l).dropWhile isJsSpace = jsTrimList l := by
  rcases dropWhile_head_shape isJsSpace l with h | ⟨a, t, h, ha⟩
  · simp [jsTrimList_eq, h]
  · rw [jsTrimList_eq, h]
    rcases dropWhile_head_shape isJsSpace t.reverse with h2 | ⟨b, u, h2, _⟩
    · have h3 : List.dropWhile isJsSpace (t.reverse ++ [a]) = [a] := by
        simp [List.dropWhile_append, h2, List.dropWhile_cons, ha]
      rw [List.reverse_cons, h3]
      simp [List.dropWhile_cons, ha, -List.dropWhile_eq_self_iff]
    · have hne : t.reverse.dropWhile isJsSpace ≠ [] := by simp [h2]
      have : (a :: t).reverse.dropWhile isJsSpace
          = t.reverse.dropWhile isJsSpace ++ [a] := by
        simp [List.reverse_cons, List.dropWhile_append, List.isEmpty_iff, hne]
      rw [this, List.reverse_append]
      simp [List.dropWhile_cons, ha]

/-- `trim` is idempotent. -/
theorem jsTrim_jsTrim (s : String) : jsTrim (jsTrim s) = jsTrim s := by
  show (⟨jsTrimList (jsTrimList s.data)⟩ : String) = ⟨jsTrimList s.data⟩
  rw [jsTrimList_eq (jsTrimList s.data), dropWhile_jsTrimList]
  show (⟨((((s.data.dropWhile isJsSpace).reverse.dropWhile isJsSpace).reverse.reverse.dropWhile
      isJsSpace).reverse)⟩ : String) = _
  rw [rdrop_rdrop]
  rfl

theorem dropWhile_replicate_space (n : Nat) (l : List Char) :
    (List.replicate n ' ' ++ l).dropWhile isJsSpace = l.dropWhile isJsSpace := by
  induction n with
  | zero => rfl
  | succ k ih => simp [List.replicate_succ, List.dropWhile_cons, isJsSpace, ih]

/-- Trimming ignores whitespace padding on both sides. -/
theorem jsTrimList_pad (n m : Nat) (l : List Char) :
    jsTrimList (List.replicate n ' ' ++ l ++ List.replicate m ' ') = jsTrimList l := by
  rw [jsTrimList_eq, jsTrimList_eq l, List.append_assoc, dropWhile_replicate_space]
  rcases dropWhile_head_shape isJsSpace l with h | ⟨a, t, h, _⟩
  · have hr : (List.replicate m ' ').dropWhile isJsSpace = ([] : List Char) := by
      simpa using dropWhile_replicate_space m []
    simp [List.dropWhile_append, h, hr]
  · have hne : l.dropWhile isJsSpace ≠ [] := by simp [h]
    have : (l ++ List.replicate m ' ').dropWhile isJsSpace
        = l.dropWhile isJsSpace ++ List.replicate m ' ' := by
      simp [List.dropWhile_append, List.isEmpty_iff, hne]
    rw [this, List.reverse_append, List.reverse_replicate, dropWhile_replicate_space]

theorem jsTrim_pad (n m : Nat) (s : String) :
    jsTrim (spaces n ++ s ++ spaces m) = jsTrim s := by
  show (⟨jsTrimList ((spaces n ++ s ++ spaces m).data)⟩ : String) = ⟨jsTrimList s.data⟩
  have : (spaces n ++ s ++ spaces m).data
      = List.replicate n ' ' ++ s.data ++ List.replicate m ' ' := by
    simp [spaces, String.data_append]
  rw [this, jsTrimList_pad]

theorem jsTrim_strOr_some (x : String) :
    jsTrim (jsStrOr (some x) "") = jsTrim x := by
  by_cases h : x = "" <;> simp [jsStrOr, h]

/-! ## Characterisation of `normalizePostInput` (shared by several claims) -/

/-- `normalizePostInput` succeeds exactly when the trimmed title, date and
body are non-empty, and then returns the trimmed fields with the coerced
status. -/
theorem normalizePostInput_ok_iff (raw : RawPayload) (rec : NormalizedPost) :
    normalizePostInput raw = .ok rec ↔
      (jsTrim (jsStrOr raw.title "") ≠ "" ∧ jsTrim (jsStrOr raw.post_date "") ≠ "" ∧
       jsTrim (jsStrOr raw.body "") ≠ "" ∧
       rec = { title := jsTrim (jsStrOr raw.title ""),
               category := jsTrim (jsStrOr raw.category ""),
               post_date := jsTrim (jsStrOr raw.post_date ""),
               body := jsTrim (jsStrOr raw.body ""),
               status := if jsToLower (jsTrim (jsStrOr raw.status "draft")) = "draft"
                    ∨ jsToLower (jsTrim (jsStrOr raw.status "draft")) = "published"
                  then jsToLower (jsTrim (jsStrOr raw.status "draft")) else "draft" }) := by
  unfold normalizePostInput
  by_cases h1 : jsTrim (jsStrOr raw.title "") = ""
  · simp [h1]
  · by_cases h2 : jsTrim (jsStrOr raw.post_date "") = ""
    · simp [h1, h2]
    · by_cases h3 : jsTrim (jsStrOr raw.body "") = ""
      · simp [h1, h2, h3]
      · rw [if_neg h1, if_neg h2, if_neg h3]
        constructor
        · intro h
          refine ⟨h1, h2, h3, ?_⟩
          injection h with h
          exact h.symm
        · rintro ⟨-, -, -, rfl⟩
          rfl

/-- The status coercion is the identity on `draft` and `published`. -/
theorem normalized_status_fixed (s' : String) (hs : s' = "draft" ∨ s' = "published") :
    (if jsToLower (jsTrim (jsStrOr (some s') "draft")) = "draft"
        ∨ jsToLower (jsTrim (jsStrOr (some s') "draft")) = "published"
     then jsToLower (jsTrim (jsStrOr (some s') "draft")) else "draft") = s' := by
  rcases hs with h | h <;> subst h <;> decide

/-! ## Claim theorems -/

/-- C3: validation of a raw post payload either produces a normalized
record or fails with the error naming the first missing required field,
checked in the fixed order title (`Titel fehlt`), then post_date
(`Datum fehlt`), then body (`Text fehlt`); each field is trimmed before
the emptiness check, so a payload whose title trims to the empty string
fails naming the title regardless of the other fields. -/
theorem validation_first_missing_field (raw : RawPayload) :
    (jsTrim (jsStrOr raw.title "") = "" →
      normalizePostInput raw = .error "Titel fehlt") ∧
    (jsTrim (jsStrOr raw.title "") ≠ "" → jsTrim (jsStrOr raw.post_date "") = "" →
      normalizePostInput raw = .error "Datum fehlt") ∧
    (jsTrim (jsStrOr raw.title "") ≠ "" → jsTrim (jsStrOr raw.post_date "") ≠ "" →
      jsTrim (jsStrOr raw.body "") = "" →
      normalizePostInput raw = .error "Text fehlt") ∧
    (jsTrim (jsStrOr raw.title "") ≠ "" → jsTrim (jsStrOr raw.post_date "") ≠ "" →
      jsTrim (jsStrOr raw.body "") ≠ "" →
      ∃ rec, normalizePostInput raw = .ok rec) := by
  refine ⟨fun h1 => ?_, fun h1 h2 => ?_, fun h1 h2 h3 => ?_, fun h1 h2 h3 => ?_⟩
  · simp only [normalizePostInput]
    rw [if_pos h1]
  · simp only [normalizePostInput]
    rw [if_neg h1, if_pos h2]
  · simp only [normalizePostInput]
    rw [if_neg h1, if_neg h2, if_pos h3]
  · exact ⟨_, (normalizePostInput_ok_iff raw _).mpr ⟨h1, h2, h3, rfl⟩⟩

/-- C3 witness: the spec's concrete scenario
`{title:"", post_date:"2024-01-01", body:"x"}` fails naming the title. -/
theorem validation_first_missing_field_witness :
    normalizePostInput ⟨some "", none, some "2024-01-01", some "x", none⟩
      = .error "Titel fehlt" :=
  (validation_first_missing_field ⟨some "", none, some "2024-01-01", some "x", none⟩).1
    (by decide)

/-- C5: for every payload accepted by validation, the normalized status
equals the supplied status trimmed and lower-cased when that value is
`draft` or `published`, and equals `draft` for every other value;
acceptance never depends on the status field; and every accepted record
has status `draft` or `published`. (An absent or empty status first
falls back to `'draft'` via `String(body.status || 'draft')`.) -/
theorem status_normalization (raw : RawPayload) (rec : NormalizedPost) (s2 : Option String) :
    (normalizePostInput raw = .ok rec →
      ((jsToLower (jsTrim (jsStrOr raw.status "draft")) = "draft" ∨
        jsToLower (jsTrim (jsStrOr raw.status "draft")) = "published") →
        rec.status = jsToLower (jsTrim (jsStrOr raw.status "draft"))) ∧
      (¬ (jsToLower (jsTrim (jsStrOr raw.status "draft")) = "draft" ∨
          jsToLower (jsTrim (jsStrOr raw.status "draft")) = "published") →
        rec.status = "draft") ∧
      (rec.status = "draft" ∨ rec.status = "published")) ∧
    exceptIsOk (normalizePostInput raw)
      = exceptIsOk (normalizePostInput { raw with status := s2 }) := by
  constructor
  · intro h
    obtain ⟨h1, h2, h3, rfl⟩ := (normalizePostInput_ok_iff raw rec).mp h
    refine ⟨fun hc => ?_, fun hc => ?_, ?_⟩
    · simp only [if_pos hc]
    · simp only [if_neg hc]
    · by_cases hc : jsToLower (jsTrim (jsStrOr raw.status "draft")) = "draft"
        ∨ jsToLower (jsTrim (jsStrOr raw.status "draft")) = "published"
      · simpa only [if_pos hc] using hc
      · exact Or.inl (by simp only [if_neg hc])
  · unfold normalizePostInput
    by_cases h1 : jsTrim (jsStrOr raw.title "") = ""
    · simp [h1, exceptIsOk]
    · by_cases h2 : jsTrim (jsStrOr raw.post_date "") = ""
      · simp [h1, h2, exceptIsOk]
      · by_cases h3 : jsTrim (jsStrOr raw.body "") = ""
        · simp [h1, h2, h3, exceptIsOk]
        · simp [h1, h2, h3, exceptIsOk]

/-- C5 witness: the spec's scenario — status `" ARCHIVED "` is stored as
`draft`. -/
theorem status_normalization_witness :
    normalizePostInput ⟨some "T", none, some "2024-01-01", some "x", some " ARCHIVED "⟩
        = .ok ⟨"T", "", "2024-01-01", "x", "draft"⟩ ∧
      (⟨"T", "", "2024-01-01", "x", "draft"⟩ : NormalizedPost).status = "draft" := by
  refine ⟨by decide, ?_⟩
  exact ((status_normalization ⟨some "T", none, some "2024-01-01", some "x", some " ARCHIVED "⟩
    ⟨"T", "", "2024-01-01", "x", "draft"⟩ none).1 (by decide)).2.1 (by decide)

/-- C9: validation is idempotent — feeding an accepted record back
through validation succeeds and returns the same record (trimming,
lower-casing and status coercion are fixed on normalized values). -/
theorem normalize_idempotent (raw : RawPayload) (rec : NormalizedPost)
    (h : normalizePostInput raw = .ok rec) :
    normalizePostInput rec.toRaw = .ok rec := by
  obtain ⟨h1, h2, h3, rfl⟩ := (normalizePostInput_ok_iff raw rec).mp h
  apply (normalizePostInput_ok_iff _ _).mpr
  have hT : jsTrim (jsStrOr (some (jsTrim (jsStrOr raw.title ""))) "")
      = jsTrim (jsStrOr raw.title "") := by rw [jsTrim_strOr_some, jsTrim_jsTrim]
  have hD : jsTrim (jsStrOr (some (jsTrim (jsStrOr raw.post_date ""))) "")
      = jsTrim (jsStrOr raw.post_date "") := by rw [jsTrim_strOr_some, jsTrim_jsTrim]
  have hB : jsTrim (jsStrOr (some (jsTrim (jsStrOr raw.body ""))) "")
      = jsTrim (jsStrOr raw.body "") := by rw [jsTrim_strOr_some, jsTrim_jsTrim]
  have hC : jsTrim (jsStrOr (some (jsTrim (jsStrOr raw.category ""))) "")
      = jsTrim (jsStrOr raw.category "") := by rw [jsTrim_strOr_some, jsTrim_jsTrim]
  simp only [NormalizedPost.toRaw, hT, hD, hB, hC]
  refine ⟨h1, h2, h3, ?_⟩
  have hmem : (if jsToLower (jsTrim (jsStrOr raw.status "draft")) = "draft"
        ∨ jsToLower (jsTrim (jsStrOr raw.status "draft")) = "published"
      then jsToLower (jsTrim (jsStrOr raw.status "draft")) else "draft") = "draft"
      ∨ (if jsToLower (jsTrim (jsStrOr raw.status "draft")) = "draft"
        ∨ jsToLower (jsTrim (jsStrOr raw.status "draft")) = "published"
      then jsToLower (jsTrim (jsStrOr raw.status "draft")) else "draft") = "published" := by
    by_cases hc : jsToLower (jsTrim (jsStrOr raw.status "draft")) = "draft"
        ∨ jsToLower (jsTrim (jsStrOr raw.status "draft")) = "published"
    · rw [if_pos hc]; exact hc
    · rw [if_neg hc]; exact Or.inl rfl
  simp only [NormalizedPost.mk.injEq, true_and]
  exact (normalized_status_fixed _ hmem).symm

/-- C9 witness: a concrete accepted payload round-trips unchanged. -/
theorem normalize_idempotent_witness :
    normalizePostInput (NormalizedPost.toRaw ⟨"T", "", "2024-01-01", "x", "draft"⟩)
      = .ok ⟨"T", "", "2024-01-01", "x", "draft"⟩ :=
  normalize_idempotent ⟨some " T ", none, some "2024-01-01", some "x", none⟩
    ⟨"T", "", "2024-01-01", "x", "draft"⟩ (by decide)

/-! ## Further helper lemmas -/

theorem jsStrOr_some_empty (x : String) : jsStrOr (some x) "" = x := by
  by_cases h : x = "" <;> simp [jsStrOr, h]

theorem checkPositive_some (v w : Int) (h : checkPositive v = some w) : 0 < w := by
  unfold checkPositive at h
  split at h
  · injection h with h
    subst h
    assumption
  · exact absurd h (by simp)

/-- Whatever id the path parser returns passed the `id > 0` guard. -/
theorem parsePositiveId_pos (s : String) (id : Int)
    (h : parsePositiveId s = some id) : 0 < id := by
  unfold parsePositiveId at h
  split at h
  · exact absurd h (by simp)
  · simp only [] at h
    repeat' split at h
    all_goals first
      | exact checkPositive_some _ _ h
      | exact absurd h (by simp)

/-- C1: login fails with the 401 InvalidCredentials response whenever
the trimmed supplied username differs from the configured admin username
or password verification fails; the verification mode is chosen solely
by the configured secret's format (bcrypt oracle when the secret starts
with a recognised bcrypt prefix, direct string equality otherwise); on
success the record `{username, role: admin}` stored in the session is
returned; a persistence failure during session regenerate or save yields
a 500 SessionError, distinct from the InvalidCredentials response. -/
theorem login_contract (bc : String → String → Bool) (cfg : AuthConfig)
    (u p : Option String) (regenErr saveErr : Bool) :
    (jsTrim (jsStrOr u "") ≠ cfg.adminUsername →
      loginHandler bc cfg u p regenErr saveErr = .err 401 "Ungültige Zugangsdaten") ∧
    (verifyPassword bc cfg (jsStrOr p "") = false →
      loginHandler bc cfg u p regenErr saveErr = .err 401 "Ungültige Zugangsdaten") ∧
    (isBcryptHash cfg.adminPassword = true →
      verifyPassword bc cfg (jsStrOr p "") = bc (jsStrOr p "") cfg.adminPassword) ∧
    (isBcryptHash cfg.adminPassword = false →
      verifyPassword bc cfg (jsStrOr p "") = (jsStrOr p "" == cfg.adminPassword)) ∧
    (jsTrim (jsStrOr u "") = cfg.adminUsername →
      verifyPassword bc cfg (jsStrOr p "") = true →
      (regenErr = true →
        loginHandler bc cfg u p regenErr saveErr
          = .err 500 "Session konnte nicht initialisiert werden") ∧
      (regenErr = false → saveErr = true →
        loginHandler bc cfg u p regenErr saveErr
          = .err 500 "Session konnte nicht gespeichert werden") ∧
      (regenErr = false → saveErr = false →
        loginHandler bc cfg u p regenErr saveErr
          = .ok ⟨cfg.adminUsername, "admin"⟩)) ∧
    (∀ m : String,
      (ApiResult.err 500 m : ApiResult UserRecord) ≠ .err 401 "Ungültige Zugangsdaten") := by
  refine ⟨fun h1 => ?_, fun h2 => ?_, fun hb => ?_, fun hb => ?_,
    fun h1 h2 => ⟨fun hr => ?_, fun hr hs => ?_, fun hr hs => ?_⟩, fun m => by simp⟩
  · simp only [loginHandler]
    rw [if_pos h1]
  · by_cases h1 : jsTrim (jsStrOr u "") ≠ cfg.adminUsername
    · simp only [loginHandler]
      rw [if_pos h1]
    · simp only [loginHandler]
      rw [if_neg h1, if_pos h2]
  · simp [verifyPassword, hb]
  · simp [verifyPassword, hb]
  · have hc : ¬ (jsTrim (jsStrOr u "") ≠ cfg.adminUsername) := fun hh => hh h1
    simp only [loginHandler]
    rw [if_neg hc, if_neg (by simp [h2]), if_pos hr]
  · have hc : ¬ (jsTrim (jsStrOr u "") ≠ cfg.adminUsername) := fun hh => hh h1
    simp only [loginHandler]
    rw [if_neg hc, if_neg (by simp [h2]), if_neg (by simp [hr]), if_pos hs]
  · have hc : ¬ (jsTrim (jsStrOr u "") ≠ cfg.adminUsername) := fun hh => hh h1
    simp only [loginHandler]
    rw [if_neg hc, if_neg (by simp [h2]), if_neg (by simp [hr]), if_neg (by simp [hs])]

/-- C1 witness: the default credentials log in (with a padded username,
a plain secret, and no session-store failure). -/
theorem login_contract_witness :
    loginHandler (fun _ _ => false) ⟨"admin", "admin123"⟩ (some "  admin ")
        (some "admin123") false false = .ok ⟨"admin", "admin"⟩ :=
  ((login_contract (fun _ _ => false) ⟨"admin", "admin123"⟩ (some "  admin ")
      (some "admin123") false false).2.2.2.2.1 (by decide) (by decide)).2.2 rfl rfl

/-- C10: login trims the supplied username but not the password —
padding the username with whitespace never changes the outcome, while
with a plain-text (non-bcrypt) secret any password differing from the
secret (in particular one differing only by surrounding whitespace) is
rejected with 401 InvalidCredentials; the padded correct username with
the exact secret logs in. -/
theorem login_trims_username_not_password (bc : String → String → Bool) (cfg : AuthConfig)
    (u : String) (p : Option String) (regenErr saveErr : Bool) (n m : Nat) (p2 : String) :
    (loginHandler bc cfg (some (spaces n ++ u ++ spaces m)) p regenErr saveErr
      = loginHandler bc cfg (some u) p regenErr saveErr) ∧
    (isBcryptHash cfg.adminPassword = false → p2 ≠ cfg.adminPassword →
      jsTrim p2 = jsTrim cfg.adminPassword →
      loginHandler bc cfg (some u) (some p2) regenErr saveErr
        = .err 401 "Ungültige Zugangsdaten") ∧
    (isBcryptHash cfg.adminPassword = false →
      jsTrim cfg.adminUsername = cfg.adminUsername →
      loginHandler bc cfg (some (spaces n ++ cfg.adminUsername ++ spaces m))
        (some cfg.adminPassword) false false = .ok ⟨cfg.adminUsername, "admin"⟩) := by
  refine ⟨?_, fun hb hne _ => ?_, fun hb hfix => ?_⟩
  · have e1 : jsTrim (jsStrOr (some (spaces n ++ u ++ spaces m)) "") = jsTrim u := by
      rw [jsStrOr_some_empty, jsTrim_pad]
    have e2 : jsTrim (jsStrOr (some u) "") = jsTrim u := by
      rw [jsStrOr_some_empty]
    simp only [loginHandler, e1, e2]
  · have hv : verifyPassword bc cfg (jsStrOr (some p2) "") = false := by
      rw [jsStrOr_some_empty, verifyPassword, if_neg (by simp [hb])]
      exact beq_eq_false_iff_ne.mpr hne
    by_cases h1 : jsTrim (jsStrOr (some u) "") ≠ cfg.adminUsername
    · simp only [loginHandler]
      rw [if_pos h1]
    · simp only [loginHandler]
      rw [if_neg h1, if_pos hv]
  · have e1 : jsTrim (jsStrOr (some (spaces n ++ cfg.adminUsername ++ spaces m)) "")
        = cfg.adminUsername := by
      rw [jsStrOr_some_empty, jsTrim_pad, hfix]
    have hv : verifyPassword bc cfg (jsStrOr (some cfg.adminPassword) "") = true := by
      rw [jsStrOr_some_empty, verifyPassword, if_neg (by simp [hb])]
      exact beq_self_eq_true cfg.adminPassword
    simp only [loginHandler, e1]
    rw [if_neg (fun hh => hh rfl), if_neg (by simp [hv])]
    rfl

/-- C10 witness: with the plain secret `"secret pw"`, a whitespace-padded
password is rejected. -/
theorem login_trims_username_not_password_witness :
    loginHandler (fun _ _ => false) ⟨"admin", "secret pw"⟩ (some "admin")
        (some " secret pw ") false false = .err 401 "Ungültige Zugangsdaten" :=
  (login_trims_username_not_password (fun _ _ => false) ⟨"admin", "secret pw"⟩
    "admin" none false false 1 1 " secret pw ").2.1 (by decide) (by decide) (by decide)

/-- C7 counterexample: with a session present whose destroy fails, the
logout handler responds with a 500 error, not `{ok:true}` — so logout
does not *always* report success. -/
theorem logout_not_always_ok : logoutHandler true true ≠ .ok () := by decide

/-- C7 (amended): logout reports `{ok:true}` whenever no session exists
(idempotence) and whenever the destroy succeeds; but a session-store
failure during destroy yields a 500 `Logout fehlgeschlagen` error. -/
theorem logout_behaviour (hasSession destroyErr : Bool) :
    (hasSession = false → logoutHandler hasSession destroyErr = .ok ()) ∧
    (destroyErr = false → logoutHandler hasSession destroyErr = .ok ()) ∧
    (hasSession = true → destroyErr = true →
      logoutHandler hasSession destroyErr = .err 500 "Logout fehlgeschlagen") := by
  refine ⟨fun h => ?_, fun h => ?_, fun h1 h2 => ?_⟩
  · subst h; rfl
  · subst h; cases hasSession <;> decide
  · subst h1; subst h2; decide

/-- C7 witness: logout without a session reports success. -/
theorem logout_behaviour_witness : logoutHandler false true = .ok () :=
  (logout_behaviour false true).1 rfl

/-- C6: when the path id fails the positive-integer check, every
id-taking post handler answers 400 `Ungültige ID` no matter what the
storage oracle would do (so no storage call is observable), and any id
the parser does produce is positive. -/
theorem invalid_id_no_storage (idParam : String) (id : Int) :
    (parsePositiveId idParam = none →
      (∀ lookup, getPostHandler lookup idParam = .err 400 "Ungültige ID") ∧
      (∀ lookup, publicGetPostHandler lookup idParam = .err 400 "Ungültige ID") ∧
      (∀ del, deletePostHandler del idParam = .err 400 "Ungültige ID") ∧
      (∀ upd raw, updatePostHandler upd idParam raw = .err 400 "Ungültige ID")) ∧
    (parsePositiveId idParam = some id → 0 < id) := by
  constructor
  · intro h
    refine ⟨fun lookup => ?_, fun lookup => ?_, fun del => ?_, fun upd raw => ?_⟩
    · simp [getPostHandler, h]
    · simp [publicGetPostHandler, h]
    · simp [deletePostHandler, h]
    · simp [updatePostHandler, h]
  · exact parsePositiveId_pos idParam id

/-- C6 witness: the spec's scenario `GET /api/posts/abc` → 400. -/
theorem invalid_id_no_storage_witness :
    getPostHandler (dbLookupAny []) "abc" = .err 400 "Ungültige ID" :=
  (((invalid_id_no_storage "abc" 1).1 (by decide)).1 (dbLookupAny []))

/-- C2 counterexample: a storage failure in the create handler is
reported with status 400 (the shared `catch` of validation and INSERT),
not with a 500-equivalent status as the claim asserts. -/
theorem create_storage_failure_status_not_500 :
    (createPostHandler (fun _ => .error "connection lost")
        ⟨some "T", none, some "2024-01-01", some "x", none⟩).statusCode ≠ 500 := by decide

/-- C2 (amended): unexpected storage failures always carry the
underlying message, but the status depends on the handler: the create
and replace handlers report them with status 400 (their single `catch`
also serves validation errors), while the read and delete handlers
report them with status 500. -/
theorem storage_failure_propagation (m : String) (raw : RawPayload) (d : NormalizedPost)
    (idParam : String) (id : Int)
    (hnorm : normalizePostInput raw = .ok d)
    (hid : parsePositiveId idParam = some id) :
    createPostHandler (fun _ => .error m) raw = .err 400 m ∧
    updatePostHandler (fun _ _ => .error m) idParam raw = .err 400 m ∧
    getPostHandler (fun _ => .error m) idParam = .err 500 m ∧
    publicGetPostHandler (fun _ => .error m) idParam = .err 500 m ∧
    deletePostHandler (fun _ => .error m) idParam = .err 500 m := by
  refine ⟨?_, ?_, ?_, ?_, ?_⟩
  · simp [createPostHandler, hnorm]
  · simp [updatePostHandler, hnorm, hid]
  · simp [getPostHandler, hid]
  · simp [publicGetPostHandler, hid]
  · simp [deletePostHandler, hid]

/-- C2 witness: a failing UPDATE on a valid request yields 400 with the
storage message. -/
theorem storage_failure_propagation_witness :
    updatePostHandler (fun _ _ => .error "connection lost") "7"
      ⟨some "T", none, some "2024-01-01", some "x", none⟩ = .err 400 "connection lost" :=
  (storage_failure_propagation "connection lost"
    ⟨some "T", none, some "2024-01-01", some "x", none⟩
    ⟨"T", "", "2024-01-01", "x", "draft"⟩ "7" 7 (by decide) (by decide)).2.1

/-- C8: both the admin listing and the public listing return their rows
sorted by `post_date` descending with ties broken by `id` descending
(stated as pairwise sortedness by `postPrecedes`), and each is a
permutation of its underlying row set (all rows resp. the published
rows projected to the public shape). -/
theorem listing_order (db : List PostRow) :
    List.Pairwise postPrecedes (adminPostsQuery db) ∧
    (adminPostsQuery db).Perm db ∧
    List.Pairwise (fun a b : PublicPostView =>
      b.post_date < a.post_date ∨ (a.post_date = b.post_date ∧ b.id ≤ a.id))
      (publicPostsQuery db) ∧
    (publicPostsQuery db).Perm ((publishedRows db).map PostRow.toPublic) := by
  refine ⟨?_, ?_, ?_, ?_⟩
  · exact List.sorted_insertionSort postPrecedes db
  · exact List.perm_insertionSort postPrecedes db
  · rw [publicPostsQuery, List.pairwise_map]
    exact List.sorted_insertionSort postPrecedes (publishedRows db)
  · exact (List.perm_insertionSort postPrecedes (publishedRows db)).map PostRow.toPublic

/-- C4: every item of the public listing stems from a published row
(and is served in the status-less public shape, `PublicPostView`); the
public fetch-by-id answers 404 `Nicht gefunden` whenever no row with
that id is published (draft posts and nonexistent ids alike); and the
public fetch never answers 401 or 403. -/
theorem public_draft_invisibility (db : List PostRow) (idParam : String) (id : Int) :
    (∀ v ∈ publicPostsQuery db, ∃ r ∈ db, r.status = "published" ∧ r.toPublic = v) ∧
    (parsePositiveId idParam = some id →
      (∀ r ∈ db, r.id = id → r.status ≠ "published") →
      publicGetPostHandler (dbLookupPublished db) idParam = .err 404 "Nicht gefunden") ∧
    (publicGetPostHandler (dbLookupPublished db) idParam).statusCode ≠ 401 ∧
    (publicGetPostHandler (dbLookupPublished db) idParam).statusCode ≠ 403 := by
  refine ⟨?_, ?_, ?_⟩
  · intro v hv
    rw [publicPostsQuery, List.mem_map] at hv
    obtain ⟨r, hr, rfl⟩ := hv
    rw [orderPosts, (List.perm_insertionSort postPrecedes _).mem_iff] at hr
    rw [publishedRows, List.mem_filter] at hr
    exact ⟨r, hr.1, by simpa using hr.2, rfl⟩
  · intro hid hnone
    have hfind : db.find? (fun r => r.id == id && r.status == "published") = none := by
      rw [List.find?_eq_none]
      intro r hr
      simp only [Bool.and_eq_true, beq_iff_eq, not_and]
      exact fun h1 => hnone r hr h1
    simp [publicGetPostHandler, hid, dbLookupPublished, hfind]
  · constructor <;>
    · rcases hparse : parsePositiveId idParam with _ | pid
      · simp [publicGetPostHandler, hparse, ApiResult.statusCode]
      · rcases hfind : db.find? (fun r => r.id == pid && r.status == "published") with _ | row
        · simp [publicGetPostHandler, hparse, dbLookupPublished, hfind, ApiResult.statusCode]
        · simp [publicGetPostHandler, hparse, dbLookupPublished, hfind, ApiResult.statusCode]

/-- C4 witness: fetching a draft post by id publicly yields 404. -/
theorem public_draft_invisibility_witness :
    publicGetPostHandler (dbLookupPublished [⟨1, "t", "", 5, "b", "draft", 0, 0⟩]) "1"
      = .err 404 "Nicht gefunden" :=
  (public_draft_invisibility [⟨1, "t", "", 5, "b", "draft", 0, 0⟩] "1" 1).2.1
    (by decide) (by decide)

end DimonteCMS
